import Mathlib

/-
Shallow embedding of `src/VecLdStInfo.hpp` (namespace WdRiscv): the
per-instruction execution record for vector load/store instructions.
Machine integers (`uint64_t`, `unsigned`) are modelled as `Nat`; no
operation in this file performs arithmetic on them, so no wrap-around is
involved. The mutable C++ struct becomes a persistent record with
explicit state passing; the two operations that are not defined on every
state (`setLastElem`, `removeLastElem`) return `Except Fail`.
-/

namespace WdRiscv

/-- Element information for a vector load/store instruction
(struct `VecLdStElem`). Field names follow the source. -/
structure VecLdStElem where
  va_ : Nat
  pa_ : Nat
  pa2_ : Nat
  data_ : Nat
  ix_ : Nat
  field_ : Nat
  skip_ : Bool
  deriving Repr, DecidableEq

/-- Default-initialized `VecLdStElem` (the C++ default member initializers:
all numeric fields 0, `skip_` false). -/
def VecLdStElem.mkDefault : VecLdStElem :=
  ⟨0, 0, 0, 0, 0, 0, false⟩

/-- Execution record for one vector load/store instruction
(struct `VecLdStInfo`). Field names and order follow the source. -/
structure VecLdStInfo where
  elemCount_ : Nat
  elemSize_ : Nat
  vec_ : Nat
  ixVec_ : Nat
  fields_ : Nat
  group_ : Nat
  ixGroup_ : Nat
  stride_ : Nat
  isLoad_ : Bool
  isIndexed_ : Bool
  isSegmented_ : Bool
  isStrided_ : Bool
  elems_ : List VecLdStElem
  deriving Repr, DecidableEq

/-- Default-initialized `VecLdStInfo` (the C++ default member initializers:
all numeric fields 0, all flags false, empty element vector). -/
def VecLdStInfo.mkDefault : VecLdStInfo :=
  ⟨0, 0, 0, 0, 0, 0, 0, 0, false, false, false, false, []⟩

/-- How an operation that is not defined on every state goes wrong:
an `assert` in the source is a checked abort (a defined, loud failure in
debug builds); calling `std::vector::back()` on an empty vector is
undefined behavior, with no check anywhere. -/
inductive Fail where
  | assertViolation
  | undefinedBehavior
  deriving Repr, DecidableEq

/-- `VecLdStInfo::empty`: true if no element was loaded/stored. -/
def VecLdStInfo.empty (r : VecLdStInfo) : Bool :=
  r.elems_.isEmpty

/-- `VecLdStInfo::clear`: zero the element size and empty the element
vector; every other field is left as is. -/
def VecLdStInfo.clear (r : VecLdStInfo) : VecLdStInfo :=
  { r with elemSize_ := 0, elems_ := [] }

/-- `VecLdStInfo::init`: base (unit-stride) configuration. Sets count,
size, data register, group multiplier and load flag; clears the three
mode flags, the index register and the field count. `ixGroup_`,
`stride_` and `elems_` are not touched. -/
def VecLdStInfo.init (r : VecLdStInfo)
    (elemCount elemSize vecReg group : Nat) (isLoad : Bool) : VecLdStInfo :=
  { r with
    elemCount_ := elemCount, elemSize_ := elemSize, vec_ := vecReg,
    group_ := group, isLoad_ := isLoad,
    isIndexed_ := false, isSegmented_ := false, isStrided_ := false,
    ixVec_ := 0, fields_ := 0 }

/-- `VecLdStInfo::initIndexed`: calls `init`, then sets `isIndexed_`,
the index register and the index group multiplier. -/
def VecLdStInfo.initIndexed (r : VecLdStInfo)
    (elemCount elemSize vecReg ixReg group ixGroup : Nat) (isLoad : Bool) :
    VecLdStInfo :=
  { r.init elemCount elemSize vecReg group isLoad with
    isIndexed_ := true, ixVec_ := ixReg, ixGroup_ := ixGroup }

/-- `VecLdStInfo::initStrided`: calls `init`, then sets `isStrided_` and
the stride. -/
def VecLdStInfo.initStrided (r : VecLdStInfo)
    (elemCount elemSize vecReg group stride : Nat) (isLoad : Bool) :
    VecLdStInfo :=
  { r.init elemCount elemSize vecReg group isLoad with
    isStrided_ := true, stride_ := stride }

/-- `VecLdStInfo::setFieldCount`: sets the field count and the segmented
flag. -/
def VecLdStInfo.setFieldCount (r : VecLdStInfo)
    (fields : Nat) (isSeg : Bool) : VecLdStInfo :=
  { r with fields_ := fields, isSegmented_ := isSeg }

/-- `VecLdStInfo::addElem`: `elems_.push_back(elem)`. -/
def VecLdStInfo.addElem (r : VecLdStInfo) (elem : VecLdStElem) : VecLdStInfo :=
  { r with elems_ := r.elems_ ++ [elem] }

/-- `VecLdStInfo::setLastElem`: writes `pa_`, `pa2_` and `data_` of
`elems_.back()`. The source has no emptiness check here: `back()` on an
empty vector is undefined behavior. -/
def VecLdStInfo.setLastElem (r : VecLdStInfo) (pa pa2 data : Nat) :
    Except Fail VecLdStInfo :=
  match r.elems_.getLast? with
  | none => .error .undefinedBehavior
  | some e =>
      .ok { r with elems_ := r.elems_.dropLast ++
              [{ e with pa_ := pa, pa2_ := pa2, data_ := data }] }

/-- `VecLdStInfo::removeLastElem`: `assert(not elems_.empty())`, then
`elems_.resize(elems_.size() - 1)`, i.e. drop the last element. -/
def VecLdStInfo.removeLastElem (r : VecLdStInfo) : Except Fail VecLdStInfo :=
  if r.elems_.isEmpty then .error .assertViolation
  else .ok { r with elems_ := r.elems_.dropLast }

/-- `VecLdStInfo::allSkipped`: `std::all_of` over the elements of the
predicate `elem.skip_`. -/
def VecLdStInfo.allSkipped (r : VecLdStInfo) : Bool :=
  r.elems_.all (fun elem => elem.skip_)

/-- One call on the record, for reachability arguments: every mutating
member function of `VecLdStInfo`. -/
inductive Op where
  | clear
  | init (elemCount elemSize vecReg group : Nat) (isLoad : Bool)
  | initIndexed (elemCount elemSize vecReg ixReg group ixGroup : Nat) (isLoad : Bool)
  | initStrided (elemCount elemSize vecReg group stride : Nat) (isLoad : Bool)
  | setFieldCount (fields : Nat) (isSeg : Bool)
  | addElem (e : VecLdStElem)
  | setLastElem (pa pa2 data : Nat)
  | removeLastElem
  deriving Repr

/-- Apply one call to a record. -/
def step (r : VecLdStInfo) : Op → Except Fail VecLdStInfo
  | .clear => .ok r.clear
  | .init a b c d l => .ok (r.init a b c d l)
  | .initIndexed a b c d e f2 l => .ok (r.initIndexed a b c d e f2 l)
  | .initStrided a b c d e l => .ok (r.initStrided a b c d e l)
  | .setFieldCount f2 s => .ok (r.setFieldCount f2 s)
  | .addElem e => .ok (r.addElem e)
  | .setLastElem pa pa2 d => r.setLastElem pa pa2 d
  | .removeLastElem => r.removeLastElem

/-- Apply a sequence of calls, stopping at the first failure. -/
def runOps (r : VecLdStInfo) : List Op → Except Fail VecLdStInfo
  | [] => .ok r
  | op :: ops =>
      match step r op with
      | .ok r2 => runOps r2 ops
      | .error e => .error e

/-- Append a whole list of elements, one `addElem` per entry. -/
def addElems (r : VecLdStInfo) (es : List VecLdStElem) : VecLdStInfo :=
  es.foldl VecLdStInfo.addElem r

/-- Mutual exclusion of the two addressing-mode selector flags. -/
def flagsExclusive (r : VecLdStInfo) : Prop :=
  ¬ (r.isIndexed_ = true ∧ r.isStrided_ = true)

/-- Sample active element, used by concrete witnesses. -/
def sampleElem : VecLdStElem := ⟨100, 200, 300, 400, 0, 0, false⟩

/-- Sample skipped element, used by concrete witnesses. -/
def sampleSkipElem : VecLdStElem := ⟨101, 201, 301, 401, 5, 1, true⟩

/-- Sample element whose lane index (7) is at or past any small active
length but whose skip flag is false, used by concrete witnesses. -/
def tailActiveElem : VecLdStElem := ⟨1, 2, 3, 4, 7, 0, false⟩

/-- Record obtained from the default record by one indexed configuration,
used by concrete witnesses. -/
def rIx : VecLdStInfo := VecLdStInfo.mkDefault.initIndexed 4 4 8 9 1 2 true

/-- Record obtained from the default record by appending `sampleElem`,
used by concrete witnesses. -/
def rOne : VecLdStInfo := VecLdStInfo.mkDefault.addElem sampleElem

/-- Record obtained from `rOne` by patching its last element with
addresses 11, 12 and data 13, used by concrete witnesses. -/
def rOnePatched : VecLdStInfo :=
  { rOne with elems_ := [⟨100, 11, 12, 13, 0, 0, false⟩] }

/-- Claim C8: `clear` sets the element size to zero and empties the
element sequence (so `empty` returns true afterwards), and modifies no
other field: active length, registers, group multipliers, stride, field
count, and the four boolean flags keep their prior values. -/
theorem C8_clear_frame (r : VecLdStInfo) :
    r.clear.elemSize_ = 0 ∧ r.clear.elems_ = [] ∧ r.clear.empty = true ∧
    r.clear.elemCount_ = r.elemCount_ ∧ r.clear.vec_ = r.vec_ ∧
    r.clear.ixVec_ = r.ixVec_ ∧ r.clear.fields_ = r.fields_ ∧
    r.clear.group_ = r.group_ ∧ r.clear.ixGroup_ = r.ixGroup_ ∧
    r.clear.stride_ = r.stride_ ∧ r.clear.isLoad_ = r.isLoad_ ∧
    r.clear.isIndexed_ = r.isIndexed_ ∧
    r.clear.isSegmented_ = r.isSegmented_ ∧
    r.clear.isStrided_ = r.isStrided_ :=
  ⟨rfl, rfl, rfl, rfl, rfl, rfl, rfl, rfl, rfl, rfl, rfl, rfl, rfl, rfl⟩

/-- Claim C9: plain `init` after an indexed or strided configuration
resets the index base register to 0, the field count to 0, and all three
mode flags to false, but leaves the index group multiplier (after an
indexed configuration) and the stride (after a strided configuration)
holding their values from the earlier configuration. -/
theorem C9_stale_after_reinit :
    (∀ (r : VecLdStInfo) (a b c d e f2 : Nat) (l : Bool) (a2 b2 c2 d2 : Nat)
        (l2 : Bool),
      ((r.initIndexed a b c d e f2 l).init a2 b2 c2 d2 l2).ixVec_ = 0 ∧
      ((r.initIndexed a b c d e f2 l).init a2 b2 c2 d2 l2).fields_ = 0 ∧
      ((r.initIndexed a b c d e f2 l).init a2 b2 c2 d2 l2).isIndexed_ = false ∧
      ((r.initIndexed a b c d e f2 l).init a2 b2 c2 d2 l2).isSegmented_ = false ∧
      ((r.initIndexed a b c d e f2 l).init a2 b2 c2 d2 l2).isStrided_ = false ∧
      ((r.initIndexed a b c d e f2 l).init a2 b2 c2 d2 l2).ixGroup_ = f2 ∧
      ((r.initIndexed a b c d e f2 l).init a2 b2 c2 d2 l2).stride_ = r.stride_) ∧
    (∀ (r : VecLdStInfo) (a b c d s : Nat) (l : Bool) (a2 b2 c2 d2 : Nat)
        (l2 : Bool),
      ((r.initStrided a b c d s l).init a2 b2 c2 d2 l2).ixVec_ = 0 ∧
      ((r.initStrided a b c d s l).init a2 b2 c2 d2 l2).fields_ = 0 ∧
      ((r.initStrided a b c d s l).init a2 b2 c2 d2 l2).isIndexed_ = false ∧
      ((r.initStrided a b c d s l).init a2 b2 c2 d2 l2).isSegmented_ = false ∧
      ((r.initStrided a b c d s l).init a2 b2 c2 d2 l2).isStrided_ = false ∧
      ((r.initStrided a b c d s l).init a2 b2 c2 d2 l2).stride_ = s ∧
      ((r.initStrided a b c d s l).init a2 b2 c2 d2 l2).ixGroup_ = r.ixGroup_) :=
  ⟨fun _ _ _ _ _ _ _ _ _ _ _ _ _ => ⟨rfl, rfl, rfl, rfl, rfl, rfl, rfl⟩,
   fun _ _ _ _ _ _ _ _ _ _ _ _ => ⟨rfl, rfl, rfl, rfl, rfl, rfl, rfl⟩⟩

/-- Claim C6: `allSkipped` returns true iff every appended element has
skip = true; on an empty record it returns true (vacuously); after
appending an element with skip = false it returns false. -/
theorem C6_allSkipped_iff :
    (∀ r : VecLdStInfo, r.allSkipped = true ↔ ∀ e ∈ r.elems_, e.skip_ = true) ∧
    (∀ r : VecLdStInfo, r.elems_ = [] → r.allSkipped = true) ∧
    (∀ (r : VecLdStInfo) (e : VecLdStElem), e.skip_ = false →
      (r.addElem e).allSkipped = false) := by
  refine ⟨fun r => ?_, fun r h => ?_, fun r e h => ?_⟩
  · simp [VecLdStInfo.allSkipped, List.all_eq_true]
  · simp [VecLdStInfo.allSkipped, h]
  · simp [VecLdStInfo.allSkipped, VecLdStInfo.addElem, h]

/-- Witness for C6 at concrete inputs: the default (empty) record is all
skipped; after appending one active element it is not. -/
theorem C6_allSkipped_iff_witness :
    VecLdStInfo.mkDefault.allSkipped = true ∧
    (VecLdStInfo.mkDefault.addElem sampleElem).allSkipped = false :=
  ⟨C6_allSkipped_iff.2.1 VecLdStInfo.mkDefault rfl,
   C6_allSkipped_iff.2.2 VecLdStInfo.mkDefault sampleElem rfl⟩

/-- Skip-flag view of `allSkipped`: it is a function of the elements'
skip flags alone. -/
lemma allSkipped_eq_map_all (r : VecLdStInfo) :
    r.allSkipped = (r.elems_.map VecLdStElem.skip_).all id := by
  unfold VecLdStInfo.allSkipped
  induction r.elems_ with
  | nil => rfl
  | cons a l ih => simp [ih]

/-- Claim C10: `allSkipped` depends only on the skip flags of the
appended elements and not on the configured active length: two records
whose elements carry the same skip flags agree on `allSkipped`, and an
appended element whose lane index is at or past the active length but
whose skip flag is false makes `allSkipped` return false. -/
theorem C10_allSkipped_ignores_elemCount :
    (∀ r1 r2 : VecLdStInfo,
      r1.elems_.map VecLdStElem.skip_ = r2.elems_.map VecLdStElem.skip_ →
      r1.allSkipped = r2.allSkipped) ∧
    (∀ (r : VecLdStInfo) (e : VecLdStElem), r.elemCount_ ≤ e.ix_ →
      e.skip_ = false → (r.addElem e).allSkipped = false) := by
  constructor
  · intro r1 r2 h
    rw [allSkipped_eq_map_all, allSkipped_eq_map_all, h]
  · intro r e _ h
    simp [VecLdStInfo.allSkipped, VecLdStInfo.addElem, h]

/-- Witness for C10 at concrete inputs: changing the active length of
the default record does not change `allSkipped`, and a lane-7 element
with skip = false on a record with active length 0 defeats
`allSkipped`. -/
theorem C10_witness :
    ({ VecLdStInfo.mkDefault with elemCount_ := 4 }).allSkipped =
      VecLdStInfo.mkDefault.allSkipped ∧
    (VecLdStInfo.mkDefault.addElem tailActiveElem).allSkipped = false :=
  ⟨C10_allSkipped_ignores_elemCount.1
      { VecLdStInfo.mkDefault with elemCount_ := 4 } VecLdStInfo.mkDefault rfl,
   C10_allSkipped_ignores_elemCount.2 VecLdStInfo.mkDefault tailActiveElem
      (by decide) rfl⟩

/-- Counterexample to claim C1: on the concrete empty (default) record,
`setLastElem` is not a checked precondition violation. The source has no
assertion in `setLastElem`; the call runs `elems_.back()` on an empty
vector, which is undefined behavior, not the defined debug-build abort
the claim describes (`removeLastElem`, by contrast, carries an
`assert`). -/
theorem C1_counterexample :
    VecLdStInfo.mkDefault.elems_ = [] ∧
    VecLdStInfo.mkDefault.setLastElem 1 2 3 =
      Except.error Fail.undefinedBehavior ∧
    Fail.undefinedBehavior ≠ Fail.assertViolation :=
  ⟨rfl, rfl, by decide⟩

/-- Claim C1 as amended: calling `setLastElem` on a record whose element
sequence is empty is an unchecked precondition violation (undefined
behavior, with no assertion present), and for every record with at least
one appended element, `setLastElem` succeeds. -/
theorem C1_setLastElem_unchecked (r : VecLdStInfo) (pa pa2 data : Nat) :
    (r.elems_ = [] →
      r.setLastElem pa pa2 data = Except.error Fail.undefinedBehavior) ∧
    (r.elems_ ≠ [] → ∃ r2, r.setLastElem pa pa2 data = Except.ok r2) := by
  constructor
  · intro h
    simp [VecLdStInfo.setLastElem, h]
  · intro h
    unfold VecLdStInfo.setLastElem
    cases hgl : r.elems_.getLast? with
    | none => exact absurd (List.getLast?_eq_none_iff.mp hgl) h
    | some e => exact ⟨_, rfl⟩

/-- Witness for the amended C1 at concrete inputs: the default (empty)
record hits undefined behavior, and the one-element record `rOne` is
patched successfully. -/
theorem C1_witness :
    VecLdStInfo.mkDefault.setLastElem 1 2 3 =
      Except.error Fail.undefinedBehavior ∧
    ∃ r2, rOne.setLastElem 11 12 13 = Except.ok r2 :=
  ⟨(C1_setLastElem_unchecked VecLdStInfo.mkDefault 1 2 3).1 rfl,
   (C1_setLastElem_unchecked rOne 11 12 13).2 (by decide)⟩

/-- Claim C2: calling `removeLastElem` on an empty record signals a
checked precondition violation (the `assert` fires: a defined abort, not
a silent no-op), and for every record with at least one appended
element, `removeLastElem` succeeds. -/
theorem C2_removeLastElem_precondition (r : VecLdStInfo) :
    (r.elems_ = [] → r.removeLastElem = Except.error Fail.assertViolation) ∧
    (r.elems_ ≠ [] → ∃ r2, r.removeLastElem = Except.ok r2) := by
  constructor
  · intro h
    simp [VecLdStInfo.removeLastElem, h]
  · intro h
    refine ⟨{ r with elems_ := r.elems_.dropLast }, ?_⟩
    simp [VecLdStInfo.removeLastElem, h]

/-- Witness for C2 at concrete inputs: a freshly cleared record aborts
on `removeLastElem`, and the one-element record `rOne` drops its element
successfully. -/
theorem C2_witness :
    rOne.clear.removeLastElem = Except.error Fail.assertViolation ∧
    ∃ r2, rOne.removeLastElem = Except.ok r2 :=
  ⟨(C2_removeLastElem_precondition rOne.clear).1 rfl,
   (C2_removeLastElem_precondition rOne).2 (by decide)⟩

/-- Claim C4: on a record whose element sequence ends in `e`,
`setLastElem pa pa2 data` replaces exactly the primary physical address,
secondary physical address and data of `e`, keeping the virtual address,
lane index, field index and skip flag of `e`, every earlier element, and
every operation-level field unchanged. -/
theorem C4_setLastElem_frame (r r2 : VecLdStInfo) (pre : List VecLdStElem)
    (e : VecLdStElem) (pa pa2 data : Nat)
    (h : r.elems_ = pre ++ [e])
    (hs : r.setLastElem pa pa2 data = Except.ok r2) :
    r2.elems_ = pre ++ [⟨e.va_, pa, pa2, data, e.ix_, e.field_, e.skip_⟩] ∧
    r2.elemCount_ = r.elemCount_ ∧ r2.elemSize_ = r.elemSize_ ∧
    r2.vec_ = r.vec_ ∧ r2.ixVec_ = r.ixVec_ ∧ r2.fields_ = r.fields_ ∧
    r2.group_ = r.group_ ∧ r2.ixGroup_ = r.ixGroup_ ∧
    r2.stride_ = r.stride_ ∧ r2.isLoad_ = r.isLoad_ ∧
    r2.isIndexed_ = r.isIndexed_ ∧ r2.isSegmented_ = r.isSegmented_ ∧
    r2.isStrided_ = r.isStrided_ := by
  unfold VecLdStInfo.setLastElem at hs
  rw [h, List.getLast?_concat] at hs
  simp only [List.dropLast_concat, Except.ok.injEq] at hs
  subst hs
  exact ⟨rfl, rfl, rfl, rfl, rfl, rfl, rfl, rfl, rfl, rfl, rfl, rfl, rfl⟩

/-- Witness for C4 at concrete inputs: patching the one-element record
`rOne` yields `rOnePatched`, whose element keeps the original virtual
address, lane, field and skip flag. -/
theorem C4_witness :
    rOnePatched.elems_ = [⟨100, 11, 12, 13, 0, 0, false⟩] ∧
    rOnePatched.elemCount_ = rOne.elemCount_ ∧
    rOnePatched.elemSize_ = rOne.elemSize_ ∧
    rOnePatched.vec_ = rOne.vec_ ∧ rOnePatched.ixVec_ = rOne.ixVec_ ∧
    rOnePatched.fields_ = rOne.fields_ ∧
    rOnePatched.group_ = rOne.group_ ∧
    rOnePatched.ixGroup_ = rOne.ixGroup_ ∧
    rOnePatched.stride_ = rOne.stride_ ∧
    rOnePatched.isLoad_ = rOne.isLoad_ ∧
    rOnePatched.isIndexed_ = rOne.isIndexed_ ∧
    rOnePatched.isSegmented_ = rOne.isSegmented_ ∧
    rOnePatched.isStrided_ = rOne.isStrided_ :=
  C4_setLastElem_frame rOne rOnePatched [] sampleElem 11 12 13 rfl rfl

/-- Claim C5: a successful `removeLastElem` reduces the sequence length
by exactly one, leaves exactly the prefix of earlier elements (each at
its old position), and `removeLastElem` right after `addElem e` returns
the record exactly as it was before the append (round trip). -/
theorem C5_removeLastElem_pop :
    (∀ r r2 : VecLdStInfo, r.removeLastElem = Except.ok r2 →
      r2.elems_.length + 1 = r.elems_.length ∧
      r2.elems_ = r.elems_.dropLast ∧
      ∀ i : Nat, i < r2.elems_.length → r2.elems_[i]? = r.elems_[i]?) ∧
    (∀ (r : VecLdStInfo) (e : VecLdStElem),
      (r.addElem e).removeLastElem = Except.ok r) := by
  constructor
  · intro r r2 hs
    unfold VecLdStInfo.removeLastElem at hs
    split at hs
    · exact Except.noConfusion hs
    · rename_i hne
      simp only [List.isEmpty_eq_true] at hne
      simp only [Except.ok.injEq] at hs
      subst hs
      refine ⟨?_, rfl, ?_⟩
      · simp only [List.length_dropLast]
        have : 0 < r.elems_.length := List.length_pos.mpr hne
        omega
      · intro i hi
        simp only [List.length_dropLast] at hi
        rw [List.getElem?_dropLast, if_pos hi]
  · intro r e
    have hne : (r.addElem e).elems_ ≠ [] := by
      simp [VecLdStInfo.addElem]
    unfold VecLdStInfo.removeLastElem
    rw [if_neg (by simp [VecLdStInfo.addElem])]
    simp [VecLdStInfo.addElem]

/-- Witness for C5 at concrete inputs: dropping the single element of
`rOne` recovers the default record. -/
theorem C5_witness :
    VecLdStInfo.mkDefault.elems_.length + 1 = rOne.elems_.length ∧
    VecLdStInfo.mkDefault.elems_ = rOne.elems_.dropLast :=
  ⟨(C5_removeLastElem_pop.1 rOne VecLdStInfo.mkDefault rfl).1,
   (C5_removeLastElem_pop.1 rOne VecLdStInfo.mkDefault rfl).2.1⟩

/-- Element sequence produced by a run of appends: `addElems`
concatenates the appended list after the existing elements. -/
lemma addElems_elems (xs : List VecLdStElem) (r : VecLdStInfo) :
    (addElems r xs).elems_ = r.elems_ ++ xs := by
  induction xs generalizing r with
  | nil => simp [addElems]
  | cons x xs ih =>
      show (addElems (r.addElem x) xs).elems_ = r.elems_ ++ x :: xs
      rw [ih]
      simp [VecLdStInfo.addElem]

/-- Counterexample to claim C7: `init` does not clear the element
sequence, so a configure call on a record still holding one element,
followed by zero appends, leaves a sequence of length 1, not 0. -/
theorem C7_counterexample :
    (addElems (rOne.init 4 4 8 1 true) []).elems_.length ≠
      ([] : List VecLdStElem).length := by
  decide

/-- Claim C7 as amended: for every configure call on a record whose
element sequence is empty (freshly reset or default-initialized),
followed by any sequence of N appends, the element sequence has length
exactly N and equals the appended list in append order. -/
theorem C7_append_order (r : VecLdStInfo) (ec es v g : Nat) (l : Bool)
    (xs : List VecLdStElem) (h : r.elems_ = []) :
    (addElems (r.init ec es v g l) xs).elems_.length = xs.length ∧
    (addElems (r.init ec es v g l) xs).elems_ = xs := by
  have h2 : (r.init ec es v g l).elems_ = [] := h
  rw [addElems_elems, h2]
  exact ⟨by simp, by simp⟩

/-- Witness for the amended C7 at concrete inputs: two appends after a
plain configuration of the default record give exactly those two
elements in order. -/
theorem C7_witness :
    (addElems (VecLdStInfo.mkDefault.init 4 4 8 1 true)
        [sampleElem, sampleSkipElem]).elems_.length = 2 ∧
    (addElems (VecLdStInfo.mkDefault.init 4 4 8 1 true)
        [sampleElem, sampleSkipElem]).elems_ = [sampleElem, sampleSkipElem] :=
  C7_append_order VecLdStInfo.mkDefault 4 4 8 1 true
    [sampleElem, sampleSkipElem] rfl

/-- Every successful call preserves mutual exclusion of the two
addressing-mode selector flags. -/
lemma step_flagsExclusive (r r2 : VecLdStInfo) (op : Op)
    (h : flagsExclusive r) (hs : step r op = Except.ok r2) :
    flagsExclusive r2 := by
  cases op with
  | clear =>
      simp only [step, Except.ok.injEq] at hs
      subst hs; exact h
  | init a b c d l =>
      simp only [step, Except.ok.injEq] at hs
      subst hs
      simp [flagsExclusive, VecLdStInfo.init]
  | initIndexed a b c d e f2 l =>
      simp only [step, Except.ok.injEq] at hs
      subst hs
      simp [flagsExclusive, VecLdStInfo.initIndexed, VecLdStInfo.init]
  | initStrided a b c d s l =>
      simp only [step, Except.ok.injEq] at hs
      subst hs
      simp [flagsExclusive, VecLdStInfo.initStrided, VecLdStInfo.init]
  | setFieldCount f2 s =>
      simp only [step, Except.ok.injEq] at hs
      subst hs; exact h
  | addElem e =>
      simp only [step, Except.ok.injEq] at hs
      subst hs; exact h
  | setLastElem pa pa2 d =>
      simp only [step] at hs
      unfold VecLdStInfo.setLastElem at hs
      split at hs
      · exact Except.noConfusion hs
      · simp only [Except.ok.injEq] at hs
        subst hs; exact h
  | removeLastElem =>
      simp only [step] at hs
      unfold VecLdStInfo.removeLastElem at hs
      split at hs
      · exact Except.noConfusion hs
      · simp only [Except.ok.injEq] at hs
        subst hs; exact h

/-- Every state reached by a successful run of calls from a state with
mutually exclusive selector flags keeps them mutually exclusive. -/
lemma runOps_flagsExclusive (ops : List Op) :
    ∀ r r2 : VecLdStInfo, flagsExclusive r →
      runOps r ops = Except.ok r2 → flagsExclusive r2 := by
  induction ops with
  | nil =>
      intro r r2 h hs
      simp only [runOps, Except.ok.injEq] at hs
      subst hs; exact h
  | cons op ops ih =>
      intro r r2 h hs
      unfold runOps at hs
      cases hstep : step r op with
      | error e =>
          rw [hstep] at hs
          exact Except.noConfusion hs
      | ok rmid =>
          rw [hstep] at hs
          exact ih rmid r2 (step_flagsExclusive r rmid op h hstep) hs

/-- Claim C3: plain `init` sets both selector flags false;
`initIndexed` sets is-indexed true and is-strided false; `initStrided`
sets is-strided true and is-indexed false; and in every state reachable
from the default-initialized record by any sequence of calls, at most
one of is-indexed and is-strided is true. -/
theorem C3_mode_flags :
    (∀ (r : VecLdStInfo) (a b c d : Nat) (l : Bool),
      (r.init a b c d l).isIndexed_ = false ∧
      (r.init a b c d l).isStrided_ = false) ∧
    (∀ (r : VecLdStInfo) (a b c d e f2 : Nat) (l : Bool),
      (r.initIndexed a b c d e f2 l).isIndexed_ = true ∧
      (r.initIndexed a b c d e f2 l).isStrided_ = false) ∧
    (∀ (r : VecLdStInfo) (a b c d s : Nat) (l : Bool),
      (r.initStrided a b c d s l).isStrided_ = true ∧
      (r.initStrided a b c d s l).isIndexed_ = false) ∧
    (∀ (ops : List Op) (r : VecLdStInfo),
      runOps VecLdStInfo.mkDefault ops = Except.ok r → flagsExclusive r) := by
  refine ⟨fun _ _ _ _ _ _ => ⟨rfl, rfl⟩, fun _ _ _ _ _ _ _ _ => ⟨rfl, rfl⟩,
    fun _ _ _ _ _ _ _ => ⟨rfl, rfl⟩, fun ops r hs => ?_⟩
  exact runOps_flagsExclusive ops VecLdStInfo.mkDefault r
    (by simp [flagsExclusive, VecLdStInfo.mkDefault]) hs

/-- Witness for C3 at concrete inputs: one indexed configuration from
the default record yields is-indexed true, is-strided false, and the
selector flags stay mutually exclusive. -/
theorem C3_witness :
    rIx.isIndexed_ = true ∧ rIx.isStrided_ = false ∧ flagsExclusive rIx :=
  ⟨(C3_mode_flags.2.1 VecLdStInfo.mkDefault 4 4 8 9 1 2 true).1,
   (C3_mode_flags.2.1 VecLdStInfo.mkDefault 4 4 8 9 1 2 true).2,
   C3_mode_flags.2.2.2 [Op.initIndexed 4 4 8 9 1 2 true] rIx rfl⟩

end WdRiscv
